import Mathlib

/-!
Verification development for `cl/citations/models.py` of the courtlistener
repository: the citation value model (Citation and its variants FullCitation,
ShortformCitation, SupraCitation, IdCitation, NonopinionCitation), their
regex generators (`as_regex`), HTML renderers (`as_html`), the human-readable
rendering (`base_citation`), the deduplication fingerprint
(`fuzzy_hash`/`fuzzy_eq`), and the conversion to a persisted model citation
(`to_model`).

Modelling conventions:
- Python `None`-able attributes become `Option` fields; Python string
  formatting `%s` of `None` renders the text "None" (`strOpt`); `%d` of a
  non-integer raises `TypeError`, so functions that apply `%d` to a possibly
  absent volume return `Option String` and yield `none` in that case.
- Python truthiness tests (`if self.match_url:`, `if self.volume:`,
  `if self.page:`) are modelled by `truthyS`/`truthyI`: `None`, the empty
  string and the integer 0 are falsy.
- `re.escape` (Python 2.7) prepends a backslash to every character that is
  not an ASCII letter, digit or underscore (`reEscape`).
- Python's `hash` of the fingerprint string is modelled by the fingerprint
  string itself: equal strings always have equal hashes, so any equality of
  fingerprint strings proved here is an equality of Python hashes as well.
-/

/-- Python `"%s" % x` for an optional string: `None` prints as "None". -/
def strOpt : Option String → String
  | some s => s
  | none => "None"

/-- Python `str(x)` for an optional integer: `None` prints as "None". -/
def strOptInt : Option Int → String
  | some v => toString v
  | none => "None"

/-- Python `str(x)` for an optional natural number (used for `lookup_index`). -/
def strOptNat : Option Nat → String
  | some v => toString v
  | none => "None"

/-- Python truthiness of an optional string: `None` and `""` are falsy. -/
def truthyS : Option String → Bool
  | none => false
  | some s => s != ""

/-- Python truthiness of an optional integer: `None` and `0` are falsy. -/
def truthyI : Option Int → Bool
  | none => false
  | some v => v != 0

/-- Python 2.7 `re.escape` escapes every character outside `[A-Za-z0-9_]`
with a preceding backslash.  Escaping of a single character. -/
def reEscapeChar (c : Char) : List Char :=
  if c.isAlphanum || c = '_' then [c] else ['\\', c]

/-- Python 2.7 `re.escape` on a whole string. -/
def reEscape (s : String) : String :=
  ⟨s.data.foldr (fun c acc => reEscapeChar c ++ acc) []⟩

/-- Python `sep.join(parts)`. -/
def strJoin (sep : String) : List String → String
  | [] => ""
  | [x] => x
  | x :: y :: rest => x ++ sep ++ strJoin sep (y :: rest)

/-- Boolean test that `pat` occurs as a contiguous sublist of `l`. -/
def isSubOf (pat : List Char) : List Char → Bool
  | [] => pat.isEmpty
  | c :: rest => pat.isPrefixOf (c :: rest) || isSubOf pat rest

/-- Boolean substring containment on strings. -/
def strContains (s pat : String) : Bool :=
  isSubOf pat.data s.data

/-- Boolean "starts with" on strings, at the character level. -/
def strStarts (s pre : String) : Bool :=
  pre.data.isPrefixOf s.data

/-- The base convenience class `Citation` of `cl/citations/models.py`.
Field order and defaults follow the Python `__init__` signature
`(reporter, page, volume, canonical_reporter=None, lookup_index=None,
extra=None, defendant=None, plaintiff=None, court=None, year=None,
match_url=None, match_id=None, reporter_found=None, reporter_index=None)`. -/
structure Citation where
  reporter : Option String
  page : Option String
  volume : Option Int
  canonical_reporter : Option String := none
  lookup_index : Option Nat := none
  extra : Option String := none
  defendant : Option String := none
  plaintiff : Option String := none
  court : Option String := none
  year : Option Int := none
  match_url : Option String := none
  match_id : Option String := none
  reporter_found : Option String := none
  reporter_index : Option Nat := none

/-- `Citation.base_citation`: `"%d %s %s" % (self.volume, self.reporter,
self.page)`.  The `%d` conversion raises `TypeError` when `volume` is `None`,
modelled as `none`; `%s` of a `None` reporter or page prints "None". -/
def Citation.base_citation (c : Citation) : Option String :=
  c.volume.map fun v => toString v ++ " " ++ strOpt c.reporter ++ " " ++ strOpt c.page

/-- `Citation.fuzzy_hash` concatenates `str(getattr(self, attr))` over
`equality_attributes = [reporter, volume, page, canonical_reporter,
lookup_index]` and hashes the result.  The pre-hash string is the model of
the hash (see the module conventions). -/
def Citation.fuzzy_hash (c : Citation) : String :=
  strOpt c.reporter ++ strOptInt c.volume ++ strOpt c.page
    ++ strOpt c.canonical_reporter ++ strOptNat c.lookup_index

/-- `Citation.fuzzy_eq`: two citations are fuzzy-equal when their fuzzy
hashes coincide. -/
def Citation.fuzzy_eq (c other : Citation) : Bool :=
  c.fuzzy_hash == other.fuzzy_hash

/-- Modelled from the spec: one entry of the external `reporters_db`
`REPORTERS` taxonomy (the data itself, `cl.search.models.Citation` and
`cl.citations.utils.map_reporter_db_cite_type` live outside `src/`), exposing
the `cite_type` code that `to_model` reads. -/
structure TaxonomyEntry where
  cite_type : String

/-- Modelled from the spec: the persisted-document citation
(`cl.search.models.Citation`, outside `src/`), carrying the core identity
fields plus the mapped internal citation-type code. -/
structure ModelCitation where
  volume : Option Int
  reporter : Option String
  page : Option String
  citeType : Nat

/-- `Citation.to_model`.  `REPORTERS[self.canonical_reporter]` raises
`KeyError` when `canonical_reporter` is `None` or not a key;
`canon[self.lookup_index]` fails when `lookup_index` is `None` or out of
range; `map_reporter_db_cite_type` (modelled as the `mapCiteType` parameter)
fails with `UnsupportedCitationTypeError` for unmapped codes.  All failure
modes are modelled as `none`. -/
def Citation.to_model (reporters : List (String × List TaxonomyEntry))
    (mapCiteType : String → Option Nat) (c : Citation) : Option ModelCitation :=
  match c.canonical_reporter with
  | none => none
  | some cr =>
    match reporters.lookup cr with
    | none => none
    | some canon =>
      match c.lookup_index with
      | none => none
      | some i =>
        match canon.get? i with
        | none => none
        | some entry =>
          (mapCiteType entry.cite_type).map fun t =>
            { volume := c.volume, reporter := c.reporter, page := c.page, citeType := t }

/-- `FullCitation` adds no fields to `Citation`. -/
structure FullCitation extends Citation

/-- `ShortformCitation.__init__(reporter, page, volume, antecedent_guess)`. -/
structure ShortformCitation extends Citation where
  antecedent_guess : String

/-- `SupraCitation.__init__(antecedent_guess, page=None, volume=None)`. -/
structure SupraCitation extends Citation where
  antecedent_guess : String

/-- `IdCitation.__init__(id_token=None, after_tokens=None,
should_linkify=False)`; the recognizer always supplies the token and the
token list, so they are modelled as present. -/
structure IdCitation extends Citation where
  id_token : String
  after_tokens : List String
  should_linkify : Bool

/-- `SupraCitation.__init__` forwards `(None, page, volume)` to the base
constructor: the reporter is always absent. -/
def SupraCitation.make (antecedent_guess : String) (page : Option String)
    (volume : Option Int) : SupraCitation :=
  { reporter := none, page := page, volume := volume, antecedent_guess := antecedent_guess }

/-- `IdCitation.__init__` forwards `(None, None, None)` to the base
constructor: reporter, page and volume are always absent. -/
def IdCitation.make (id_token : String) (after_tokens : List String)
    (should_linkify : Bool) : IdCitation :=
  { reporter := none, page := none, volume := none,
    id_token := id_token, after_tokens := after_tokens, should_linkify := should_linkify }

/-- `FullCitation.as_regex`: `r"%d(\s+)%s(\s+)%s(\s?)" % (self.volume,
re.escape(self.reporter_found), re.escape(self.page))`.  `%d` of `None` and
`re.escape(None)` raise, modelled as `none`. -/
def FullCitation.as_regex (c : FullCitation) : Option String :=
  match c.volume, c.reporter_found, c.page with
  | some v, some rf, some p =>
      some (toString v ++ "(\\s+)" ++ reEscape rf ++ "(\\s+)" ++ reEscape p ++ "(\\s?)")
  | _, _, _ => none

/-- `ShortformCitation.as_regex`:
`r"%s(\s+)%d(\s+)%s(,?)(\s+)at(\s+)%s(\s?)"` over the escaped antecedent
guess, the volume, the escaped `reporter_found` and the escaped page. -/
def ShortformCitation.as_regex (c : ShortformCitation) : Option String :=
  match c.volume, c.reporter_found, c.page with
  | some v, some rf, some p =>
      some (reEscape c.antecedent_guess ++ "(\\s+)" ++ toString v ++ "(\\s+)"
        ++ reEscape rf ++ "(,?)(\\s+)at(\\s+)" ++ reEscape p ++ "(\\s?)")
  | _, _, _ => none

/-- `SupraCitation.as_regex`: branches on the truthiness of `volume` and
`page`; total, since the formatted values are only used in truthy branches. -/
def SupraCitation.as_regex (c : SupraCitation) : String :=
  (if truthyI c.volume then
    reEscape c.antecedent_guess ++ "(\\s+)" ++ strOptInt c.volume ++ "(\\s+)supra"
  else
    reEscape c.antecedent_guess ++ "(\\s+)supra")
  ++ (if truthyS c.page then ",(\\s+)at(\\s+)" ++ reEscape (strOpt c.page) else "")
  ++ "(\\s?)"

/-- The `whitespace_regex` literal of `IdCitation.as_regex`: a single
capture group matching any run of whitespace, HTML tags and commas. -/
def whitespace_regex : String := "((?:\\s|</?\\w+>|,)*)"

/-- `IdCitation.as_regex`: leading whitespace group, escaped `id_token`,
whitespace group, the escaped `after_tokens` joined by whitespace groups,
and a final `(\s?)` group. -/
def IdCitation.as_regex (c : IdCitation) : String :=
  whitespace_regex ++ reEscape c.id_token ++ whitespace_regex
    ++ strJoin whitespace_regex (c.after_tokens.map reEscape)
    ++ "(\\s?)"

/-- The `span_class` computed by every `as_html`: "citation", plus
" no-link" when `match_url` is falsy. -/
def citationSpanClass (u : Option String) : String :=
  if truthyS u then "citation" else "citation" ++ " no-link"

/-- The `data_attr` computed by every `as_html`: ` data-id="%s"` of
`match_id` when `match_url` is truthy, empty otherwise. -/
def citationDataAttr (u i : Option String) : String :=
  if truthyS u then " data-id=\"" ++ strOpt i ++ "\"" else ""

/-- The anchor wrapping applied by `as_html` when `match_url` is truthy:
`'<a href="%s">%s</a>' % (self.match_url, inner_html)`. -/
def citationLinkWrap (u : Option String) (inner : String) : String :=
  if truthyS u then "<a href=\"" ++ strOpt u ++ "\">" ++ inner ++ "</a>" else inner

/-- The outer container emitted by every `as_html`:
`'<span class="%s"%s>%s</span>' % (span_class, data_attr, body)`. -/
def spanWrap (cls attr body : String) : String :=
  "<span class=\"" ++ cls ++ "\"" ++ attr ++ ">" ++ body ++ "</span>"

/-- `FullCitation.as_html` inner template: volume/reporter/page spans with
backreferences 1-3 in between (`template % self.__dict__`); `%(volume)d`
fails on an absent volume. -/
def FullCitation.inner_html (c : FullCitation) : Option String :=
  c.volume.map fun v =>
    "<span class=\"volume\">" ++ toString v ++ "</span>\\g<1><span class=\"reporter\">"
      ++ strOpt c.reporter ++ "</span>\\g<2><span class=\"page\">"
      ++ strOpt c.page ++ "</span>\\g<3>"

/-- `FullCitation.as_html`: the inner template, anchor-wrapped when
`match_url` is truthy, inside the citation span. -/
def FullCitation.as_html (c : FullCitation) : Option String :=
  c.inner_html.map fun ih =>
    spanWrap (citationSpanClass c.match_url) (citationDataAttr c.match_url c.match_id)
      (citationLinkWrap c.match_url ih)

/-- `ShortformCitation.as_html` inner template: volume/reporter/page spans
with backreferences 2-6 (`inner_html % self.__dict__`). -/
def ShortformCitation.inner_html (c : ShortformCitation) : Option String :=
  c.volume.map fun v =>
    "<span class=\"volume\">" ++ toString v ++ "</span>\\g<2><span class=\"reporter\">"
      ++ strOpt c.reporter ++ "</span>\\g<3>\\g<4>at\\g<5><span class=\"page\">"
      ++ strOpt c.page ++ "</span>\\g<6>"

/-- `ShortformCitation.as_html`: the antecedent-guess span and
backreference 1 stay outside the (possibly anchor-wrapped) inner template. -/
def ShortformCitation.as_html (c : ShortformCitation) : Option String :=
  c.inner_html.map fun ih =>
    spanWrap (citationSpanClass c.match_url) (citationDataAttr c.match_url c.match_id)
      ("<span class=\"antecedent_guess\">" ++ c.antecedent_guess ++ "</span>\\g<1>"
        ++ citationLinkWrap c.match_url ih)

/-- `SupraCitation.as_html` inner html: antecedent-guess span, then the
volume/page branches with their backreferences, following the source's
truthiness tests on `volume` and `page`. -/
def SupraCitation.inner_html (c : SupraCitation) : String :=
  "<span class=\"antecedent_guess\">" ++ c.antecedent_guess ++ "</span>"
    ++ (if truthyI c.volume then
          "\\g<1><span class=\"volume\">" ++ strOptInt c.volume ++ "</span>\\g<2>supra"
            ++ (if truthyS c.page then
                  ",\\g<3>at\\g<4><span class=\"page\">" ++ strOpt c.page ++ "</span>\\g<5>"
                else "\\g<3>")
        else
          "\\g<1>supra"
            ++ (if truthyS c.page then
                  ",\\g<2>at\\g<3><span class=\"page\">" ++ strOpt c.page ++ "</span>\\g<4>"
                else "\\g<2>"))

/-- `SupraCitation.as_html`: inner html, anchor-wrapped when `match_url` is
truthy, inside the citation span. -/
def SupraCitation.as_html (c : SupraCitation) : String :=
  spanWrap (citationSpanClass c.match_url) (citationDataAttr c.match_url c.match_id)
    (citationLinkWrap c.match_url c.inner_html)

/-- `IdCitation.generate_after_token_html`: `"\g<I>token"` for each after
token (I = index + 2), then one final backreference to group
`len(after_tokens) + 2`. -/
def IdCitation.generate_after_token_html (c : IdCitation) : String :=
  strJoin "" (c.after_tokens.enum.map fun p => "\\g<" ++ toString (p.1 + 2) ++ ">" ++ p.2)
    ++ "\\g<" ++ toString (c.after_tokens.length + 2) ++ ">"

/-- The `id_string` computed inside `IdCitation.as_html`: the id-token span
with the after-token html, anchor-wrapped (including or excluding the after
tokens, per `should_linkify`) when `match_url` is truthy. -/
def IdCitation.id_string (c : IdCitation) : String :=
  let after := c.generate_after_token_html
  if truthyS c.match_url then
    if c.should_linkify then
      "<a href=\"" ++ strOpt c.match_url ++ "\"><span class=\"id_token\">"
        ++ c.id_token ++ "</span>" ++ after ++ "</a>"
    else
      "<a href=\"" ++ strOpt c.match_url ++ "\"><span class=\"id_token\">"
        ++ c.id_token ++ "</span></a>" ++ after
  else
    "<span class=\"id_token\">" ++ c.id_token ++ "</span>" ++ after

/-- `IdCitation.as_html`:
`'<span class="%s"%s>\g<1>%s</span>' % (span_class, data_attr, id_string)` —
the backreference to the leading whitespace group sits immediately after the
opening tag of the citation span. -/
def IdCitation.as_html (c : IdCitation) : String :=
  spanWrap (citationSpanClass c.match_url) (citationDataAttr c.match_url c.match_id)
    ("\\g<1>" ++ c.id_string)

/-- One piece of a regex-substitution replacement template: literal text or
a backreference `\g<n>` to a capture group, the two syntactic forms Python's
`re.sub` distinguishes when it parses the template. -/
inductive HtmlPiece where
  | lit : String → HtmlPiece
  | backref : Nat → HtmlPiece

/-- Rendering a replacement template back into its source text. -/
def renderPieces : List HtmlPiece → String
  | [] => ""
  | .lit s :: rest => s ++ renderPieces rest
  | .backref n :: rest => "\\g<" ++ toString n ++ ">" ++ renderPieces rest

/-- The capture-group numbers a replacement template references, in order. -/
def refsOf (l : List HtmlPiece) : List Nat :=
  l.filterMap fun p =>
    match p with
    | .backref n => some n
    | .lit _ => none

/-- `IdCitation.generate_after_token_html` as a replacement template:
`[backref (i+2), lit token]` for each after token, then the final
backreference to group `len(after_tokens) + 2`. -/
def IdCitation.after_token_pieces (c : IdCitation) : List HtmlPiece :=
  (c.after_tokens.enum.map fun p => [HtmlPiece.backref (p.1 + 2), HtmlPiece.lit p.2]).flatten
    ++ [HtmlPiece.backref (c.after_tokens.length + 2)]

/-- `IdCitation.as_html` as a replacement template: the opening tag of the
citation span, the backreference to the leading whitespace group, the
id_string branches of the source, and the closing tag. -/
def IdCitation.as_html_pieces (c : IdCitation) : List HtmlPiece :=
  [HtmlPiece.lit ("<span class=\"" ++ citationSpanClass c.match_url ++ "\""
      ++ citationDataAttr c.match_url c.match_id ++ ">"),
   HtmlPiece.backref 1]
  ++ (if truthyS c.match_url then
        if c.should_linkify then
          [HtmlPiece.lit ("<a href=\"" ++ strOpt c.match_url ++ "\"><span class=\"id_token\">"
            ++ c.id_token ++ "</span>")] ++ c.after_token_pieces ++ [HtmlPiece.lit "</a>"]
        else
          [HtmlPiece.lit ("<a href=\"" ++ strOpt c.match_url ++ "\"><span class=\"id_token\">"
            ++ c.id_token ++ "</span></a>")] ++ c.after_token_pieces
      else
        [HtmlPiece.lit ("<span class=\"id_token\">" ++ c.id_token ++ "</span>")]
          ++ c.after_token_pieces)
  ++ [HtmlPiece.lit "</span>"]

/-- Abstract syntax of the regular expressions the module generates.  `ch`
is a literal character written raw in the pattern source; `esc` is a literal
character produced by `re.escape` (same matching semantics, different
rendering); `sCls`/`wCls` are the `\s`/`\w` character classes; `group` is a
capturing group, `ncgroup` a `(?:...)` non-capturing group; `fail` matches
nothing (it arises only from derivatives, never from rendering a pattern). -/
inductive Rx where
  | eps : Rx
  | fail : Rx
  | ch : Char → Rx
  | esc : Char → Rx
  | sCls : Rx
  | wCls : Rx
  | seq : Rx → Rx → Rx
  | alt : Rx → Rx → Rx
  | star : Rx → Rx
  | plus : Rx → Rx
  | opt : Rx → Rx
  | group : Rx → Rx
  | ncgroup : Rx → Rx

/-- Python `\s` over the ASCII range: space, tab, newline, carriage return,
vertical tab, form feed. -/
def pySpace (c : Char) : Bool :=
  c = ' ' || c = '\t' || c = '\n' || c = '\r' || c = '\x0b' || c = '\x0c'

/-- Python `\w` (no-locale, no-unicode flags): ASCII letters, digits and
underscore. -/
def pyWord (c : Char) : Bool :=
  c.isAlphanum || c = '_'

/-- Rendering an `Rx` back to regex source text, reproducing exactly the
pattern strings the Python module builds. -/
def Rx.render : Rx → String
  | .eps => ""
  | .fail => ""
  | .ch c => String.singleton c
  | .esc c => ⟨reEscapeChar c⟩
  | .sCls => "\\s"
  | .wCls => "\\w"
  | .seq a b => a.render ++ b.render
  | .alt a b => a.render ++ "|" ++ b.render
  | .star r => r.render ++ "*"
  | .plus r => r.render ++ "+"
  | .opt r => r.render ++ "?"
  | .group r => "(" ++ r.render ++ ")"
  | .ncgroup r => "(?:" ++ r.render ++ ")"

/-- Number of capturing groups of a pattern. -/
def Rx.groupCount : Rx → Nat
  | .eps | .fail | .ch _ | .esc _ | .sCls | .wCls => 0
  | .seq a b => a.groupCount + b.groupCount
  | .alt a b => a.groupCount + b.groupCount
  | .star r | .plus r | .opt r | .ncgroup r => r.groupCount
  | .group r => 1 + r.groupCount

/-- Nullability: does the pattern match the empty string? -/
def Rx.nullable : Rx → Bool
  | .eps => true
  | .fail => false
  | .ch _ | .esc _ | .sCls | .wCls => false
  | .seq a b => a.nullable && b.nullable
  | .alt a b => a.nullable || b.nullable
  | .star _ => true
  | .plus r => r.nullable
  | .opt _ => true
  | .group r | .ncgroup r => r.nullable

/-- Brzozowski derivative with respect to one character. -/
def Rx.deriv : Rx → Char → Rx
  | .eps, _ => .fail
  | .fail, _ => .fail
  | .ch a, c => if a = c then .eps else .fail
  | .esc a, c => if a = c then .eps else .fail
  | .sCls, c => if pySpace c then .eps else .fail
  | .wCls, c => if pyWord c then .eps else .fail
  | .seq a b, c =>
      if a.nullable then .alt (.seq (a.deriv c) b) (b.deriv c) else .seq (a.deriv c) b
  | .alt a b, c => .alt (a.deriv c) (b.deriv c)
  | .star r, c => .seq (r.deriv c) (.star r)
  | .plus r, c => .seq (r.deriv c) (.star r)
  | .opt r, c => r.deriv c
  | .group r, c => r.deriv c
  | .ncgroup r, c => r.deriv c

/-- Does the pattern match some prefix of the character list? -/
def Rx.matchesPre : Rx → List Char → Bool
  | r, [] => r.nullable
  | r, c :: rest => r.nullable || (r.deriv c).matchesPre rest

/-- Unanchored search, as `re.search`: does the pattern match starting at
some position of the list? -/
def Rx.searchAux : Rx → List Char → Bool
  | r, [] => r.nullable
  | r, c :: rest => r.matchesPre (c :: rest) || r.searchAux rest

/-- Unanchored search over a string. -/
def Rx.search (r : Rx) (s : String) : Bool :=
  r.searchAux s.data

/-- Sequence a character list into an `Rx` through an atom constructor. -/
def seqChars (f : Char → Rx) : List Char → Rx
  | [] => .eps
  | c :: rest => .seq (f c) (seqChars f rest)

/-- A string written literally in the pattern source (e.g. the `%d`-formatted
volume, or fixed text such as `at` and `supra`). -/
def litRx (s : String) : Rx := seqChars Rx.ch s.data

/-- A string inserted through `re.escape`. -/
def escRx (s : String) : Rx := seqChars Rx.esc s.data

/-- `sep.join(parts)` at the pattern level. -/
def rxJoin (sep : Rx) : List Rx → Rx
  | [] => .eps
  | [r] => r
  | r :: s :: rest => .seq r (.seq sep (rxJoin sep (s :: rest)))

/-- `</?\w+>`: an HTML tag, as matched inside `whitespace_regex`. -/
def htmlTagRx : Rx :=
  .seq (.ch '<') (.seq (.opt (.ch '/')) (.seq (.plus .wCls) (.ch '>')))

/-- `((?:\s|</?\w+>|,)*)`: the capture group of `IdCitation.as_regex`
matching any run of whitespace, HTML tags and commas. -/
def wsGroupRx : Rx :=
  .group (.star (.ncgroup (.alt (.alt .sCls htmlTagRx) (.ch ','))))

/-- `(\s+)`: the whitespace capture group used between fixed tokens by
FullCitation, ShortformCitation and SupraCitation. -/
def wsPlusRx : Rx := .group (.plus .sCls)

/-- `(\s?)`: the final optional-whitespace capture group. -/
def wsOptRx : Rx := .group (.opt .sCls)

/-- `FullCitation.as_regex` as a pattern, over the formatted volume and the
escaped `reporter_found` and page. -/
def fullRegexAst (v : Int) (rf p : String) : Rx :=
  .seq (litRx (toString v)) (.seq wsPlusRx (.seq (escRx rf)
    (.seq wsPlusRx (.seq (escRx p) wsOptRx))))

/-- `IdCitation.as_regex` as a pattern. -/
def IdCitation.as_regex_ast (c : IdCitation) : Rx :=
  .seq wsGroupRx (.seq (escRx c.id_token) (.seq wsGroupRx
    (.seq (rxJoin wsGroupRx (c.after_tokens.map escRx)) wsOptRx)))


/-- Appending the empty string on the right is the identity. -/
theorem strAppendEmpty (a : String) : a ++ "" = a := by
  apply String.ext
  simp [String.data_append]

/-- Rendering a raw literal character sequence gives back the characters. -/
theorem render_seqChars_ch : ∀ l : List Char, (seqChars Rx.ch l).render = ⟨l⟩
  | [] => rfl
  | c :: rest => by
      show String.singleton c ++ (seqChars Rx.ch rest).render = _
      rw [render_seqChars_ch rest]
      apply String.ext
      simp [String.data_append, String.singleton]

/-- Rendering a literal string pattern gives back the string. -/
theorem render_litRx (s : String) : (litRx s).render = s := by
  cases s with
  | mk l => exact render_seqChars_ch l

/-- Rendering an escaped character sequence gives its `re.escape` form. -/
theorem render_seqChars_esc : ∀ l : List Char,
    (seqChars Rx.esc l).render = ⟨l.foldr (fun c acc => reEscapeChar c ++ acc) []⟩
  | [] => rfl
  | c :: rest => by
      show (⟨reEscapeChar c⟩ : String) ++ (seqChars Rx.esc rest).render = _
      rw [render_seqChars_esc rest]
      apply String.ext
      simp [String.data_append]

/-- Rendering an escaped string pattern gives its `re.escape` form. -/
theorem render_escRx (s : String) : (escRx s).render = reEscape s := by
  cases s with
  | mk l => exact render_seqChars_esc l

/-- Rendering of the `(\s+)` group. -/
theorem render_wsPlusRx : wsPlusRx.render = "(\\s+)" := rfl

/-- Rendering of the `(\s?)` group. -/
theorem render_wsOptRx : wsOptRx.render = "(\\s?)" := rfl

/-- Rendering of the id-citation whitespace wildcard group. -/
theorem render_wsGroupRx : wsGroupRx.render = whitespace_regex := rfl

/-- A pattern-level join renders to the string-level join. -/
theorem render_rxJoin (sep : Rx) : ∀ l : List Rx,
    (rxJoin sep l).render = strJoin sep.render (l.map Rx.render)
  | [] => rfl
  | [r] => rfl
  | r :: s :: rest => by
      show r.render ++ (sep.render ++ (rxJoin sep (s :: rest)).render) = _
      rw [render_rxJoin sep (s :: rest)]
      show _ = r.render ++ sep.render ++ strJoin sep.render ((s :: rest).map Rx.render)
      rw [String.append_assoc]

/-- A character-sequenced pattern over group-free atoms has no groups. -/
theorem groupCount_seqChars (f : Char → Rx) (h : ∀ c, (f c).groupCount = 0) :
    ∀ l : List Char, (seqChars f l).groupCount = 0
  | [] => rfl
  | c :: rest => by
      show (f c).groupCount + (seqChars f rest).groupCount = 0
      rw [h c, groupCount_seqChars f h rest]

/-- Escaped strings contribute no capture groups. -/
theorem groupCount_escRx (s : String) : (escRx s).groupCount = 0 :=
  groupCount_seqChars Rx.esc (fun _ => rfl) s.data

/-- Literal strings contribute no capture groups. -/
theorem groupCount_litRx (s : String) : (litRx s).groupCount = 0 :=
  groupCount_seqChars Rx.ch (fun _ => rfl) s.data

/-- The id-citation whitespace wildcard is one capture group. -/
theorem groupCount_wsGroupRx : wsGroupRx.groupCount = 1 := rfl

/-- Joining `N` escaped tokens with the whitespace wildcard contributes
`N - 1` capture groups (truncated at zero). -/
theorem groupCount_rxJoin_esc : ∀ toks : List String,
    (rxJoin wsGroupRx (toks.map escRx)).groupCount = toks.length - 1
  | [] => rfl
  | [t] => by
      show (escRx t).groupCount = 0
      exact groupCount_escRx t
  | t :: t' :: rest => by
      have ih := groupCount_rxJoin_esc (t' :: rest)
      show (escRx t).groupCount + (wsGroupRx.groupCount
        + (rxJoin wsGroupRx ((t' :: rest).map escRx)).groupCount) = _
      rw [groupCount_escRx, groupCount_wsGroupRx, ih]
      simp
      omega

/-- The id-citation pattern renders to the string `IdCitation.as_regex`
builds. -/
theorem id_as_regex_render (c : IdCitation) : c.as_regex_ast.render = c.as_regex := by
  show wsGroupRx.render ++ ((escRx c.id_token).render ++ (wsGroupRx.render
    ++ ((rxJoin wsGroupRx (c.after_tokens.map escRx)).render ++ wsOptRx.render))) = _
  rw [render_escRx, render_rxJoin, render_wsGroupRx, render_wsOptRx]
  rw [List.map_map]
  have hmaps : (Rx.render ∘ escRx) = reEscape := funext render_escRx
  rw [hmaps]
  show _ = whitespace_regex ++ reEscape c.id_token ++ whitespace_regex
    ++ strJoin whitespace_regex (c.after_tokens.map reEscape) ++ "(\\s?)"
  simp [String.append_assoc]

/-- The full-citation pattern renders to the string
`FullCitation.as_regex` builds. -/
theorem full_regex_render (v : Int) (rf p : String) :
    (fullRegexAst v rf p).render
      = toString v ++ "(\\s+)" ++ reEscape rf ++ "(\\s+)" ++ reEscape p ++ "(\\s?)" := by
  show (litRx (toString v)).render ++ (wsPlusRx.render ++ ((escRx rf).render
    ++ (wsPlusRx.render ++ ((escRx p).render ++ wsOptRx.render)))) = _
  rw [render_litRx, render_escRx, render_escRx, render_wsPlusRx, render_wsOptRx]
  simp [String.append_assoc]

/-- The number of capture groups of the id-citation pattern, for any token
list: three fixed groups plus one per join separator. -/
theorem id_groupCount (c : IdCitation) :
    c.as_regex_ast.groupCount = 3 + (c.after_tokens.length - 1) := by
  show wsGroupRx.groupCount + ((escRx c.id_token).groupCount + (wsGroupRx.groupCount
    + ((rxJoin wsGroupRx (c.after_tokens.map escRx)).groupCount + wsOptRx.groupCount))) = _
  rw [groupCount_escRx, groupCount_wsGroupRx, groupCount_rxJoin_esc]
  show 1 + (0 + (1 + (c.after_tokens.length - 1 + 1))) = _
  omega

/-- The character data of the empty string. -/
theorem strDataEmpty : ("" : String).data = [] := rfl

/-- Prepending the empty string is the identity. -/
theorem strEmptyAppend (a : String) : "" ++ a = a := by
  apply String.ext
  simp [String.data_append, strDataEmpty]

/-- `renderPieces` distributes over list append. -/
theorem renderPieces_append : ∀ a b : List HtmlPiece,
    renderPieces (a ++ b) = renderPieces a ++ renderPieces b
  | [], b => by
      show renderPieces b = "" ++ renderPieces b
      rw [strEmptyAppend]
  | .lit s :: rest, b => by
      show s ++ renderPieces (rest ++ b) = s ++ renderPieces rest ++ renderPieces b
      rw [renderPieces_append rest b]
      simp [String.append_assoc]
  | .backref n :: rest, b => by
      show "\\g<" ++ toString n ++ ">" ++ renderPieces (rest ++ b)
        = "\\g<" ++ toString n ++ ">" ++ renderPieces rest ++ renderPieces b
      rw [renderPieces_append rest b]
      simp [String.append_assoc]

/-- Rendering the per-token backreference/literal pairs gives the joined
after-token template of the source. -/
theorem renderPieces_flat : ∀ l : List (Nat × String),
    renderPieces ((l.map fun p => [HtmlPiece.backref (p.1 + 2), HtmlPiece.lit p.2]).flatten)
      = strJoin "" (l.map fun p => "\\g<" ++ toString (p.1 + 2) ++ ">" ++ p.2)
  | [] => rfl
  | [p] => by
      show "\\g<" ++ toString (p.1 + 2) ++ ">" ++ (p.2 ++ "")
        = "\\g<" ++ toString (p.1 + 2) ++ ">" ++ p.2
      rw [strAppendEmpty]
  | p :: q :: rest => by
      have ih := renderPieces_flat (q :: rest)
      show "\\g<" ++ toString (p.1 + 2) ++ ">"
          ++ (p.2 ++ renderPieces (((q :: rest).map fun p =>
                [HtmlPiece.backref (p.1 + 2), HtmlPiece.lit p.2]).flatten))
        = "\\g<" ++ toString (p.1 + 2) ++ ">" ++ p.2 ++ ""
          ++ strJoin "" ((q :: rest).map fun p => "\\g<" ++ toString (p.1 + 2) ++ ">" ++ p.2)
      rw [ih, strAppendEmpty]
      simp [String.append_assoc]

/-- The after-token replacement template renders to the string
`generate_after_token_html` builds. -/
theorem after_token_pieces_render (c : IdCitation) :
    renderPieces c.after_token_pieces = c.generate_after_token_html := by
  show renderPieces (_ ++ [HtmlPiece.backref (c.after_tokens.length + 2)]) = _
  rw [renderPieces_append, renderPieces_flat]
  show _ ++ ("\\g<" ++ toString (c.after_tokens.length + 2) ++ ">" ++ "") = _
  rw [strAppendEmpty]
  show _ = strJoin "" _ ++ "\\g<" ++ toString (c.after_tokens.length + 2) ++ ">"
  simp [String.append_assoc]

/-- `refsOf` distributes over list append. -/
theorem refsOf_append (a b : List HtmlPiece) : refsOf (a ++ b) = refsOf a ++ refsOf b := by
  simp [refsOf, List.filterMap_append]

/-- The backreferences of the per-token pairs are the shifted indices. -/
theorem refsOf_flat : ∀ l : List (Nat × String),
    refsOf ((l.map fun p => [HtmlPiece.backref (p.1 + 2), HtmlPiece.lit p.2]).flatten)
      = l.map fun p => p.1 + 2
  | [] => rfl
  | p :: rest => by
      have ih := refsOf_flat rest
      show refsOf ([HtmlPiece.backref (p.1 + 2), HtmlPiece.lit p.2] ++ _) = _
      rw [refsOf_append, ih]
      rfl

/-- The after-token template references the groups `2 .. N+1` in order and
then the final group `N+2`. -/
theorem refsOf_after_token_pieces (c : IdCitation) :
    refsOf c.after_token_pieces
      = (List.range c.after_tokens.length).map (fun k => k + 2)
        ++ [c.after_tokens.length + 2] := by
  show refsOf (_ ++ [HtmlPiece.backref (c.after_tokens.length + 2)]) = _
  rw [refsOf_append, refsOf_flat]
  congr 1
  have h1 : c.after_tokens.enum.map (fun p => p.1 + 2)
      = (c.after_tokens.enum.map Prod.fst).map (fun k => k + 2) := by
    rw [List.map_map]
    rfl
  rw [h1, List.enum_map_fst]

/-- The id-citation markup references the leading whitespace group and then
exactly the groups of the after-token template. -/
theorem refsOf_as_html_pieces (c : IdCitation) :
    refsOf c.as_html_pieces = 1 :: refsOf c.after_token_pieces := by
  show refsOf (([HtmlPiece.lit _, HtmlPiece.backref 1] ++ _) ++ [HtmlPiece.lit "</span>"]) = _
  rw [refsOf_append, refsOf_append]
  by_cases h : truthyS c.match_url
  · by_cases h2 : c.should_linkify
    · simp [h, h2, refsOf, List.filterMap_append]
    · simp [h, h2, refsOf, List.filterMap_append]
  · simp [h, refsOf, List.filterMap_append]

/-- Rendering an opening literal followed by the group-1 backreference. -/
theorem renderLitBackref1 (s : String) :
    renderPieces [HtmlPiece.lit s, HtmlPiece.backref 1] = s ++ "\\g<1>" := rfl

/-- Folding the adjacent literals `">"` and `"\g<1>"`. -/
theorem gtBackrefFold (x : String) : ">" ++ ("\\g<1>" ++ x) = ">\\g<1>" ++ x := by
  rw [← String.append_assoc]
  rfl

/-- The id-citation replacement template renders to the string
`IdCitation.as_html` builds. -/
theorem as_html_pieces_render (c : IdCitation) :
    renderPieces c.as_html_pieces = c.as_html := by
  show renderPieces (([HtmlPiece.lit _, HtmlPiece.backref 1] ++ _) ++ [HtmlPiece.lit "</span>"]) = _
  rw [renderPieces_append, renderPieces_append, renderLitBackref1]
  by_cases h : truthyS c.match_url
  · by_cases h2 : c.should_linkify
    · simp [h, h2, IdCitation.as_html, IdCitation.id_string, spanWrap, renderPieces_append,
        renderPieces, after_token_pieces_render, strAppendEmpty, String.append_assoc, gtBackrefFold]
    · simp [h, h2, IdCitation.as_html, IdCitation.id_string, spanWrap, renderPieces_append,
        renderPieces, after_token_pieces_render, strAppendEmpty, String.append_assoc, gtBackrefFold]
  · simp [h, IdCitation.as_html, IdCitation.id_string, spanWrap, renderPieces_append,
      renderPieces, after_token_pieces_render, strAppendEmpty, String.append_assoc, gtBackrefFold]

/-- C3: for every FullCitation, `base_citation` renders
`"{volume} {reporter} {page}"`; in particular the Adarand citation with
volume 515, reporter "U.S." and page "200" renders "515 U.S. 200"
regardless of year, defendant and plaintiff. -/
theorem base_citation_full_form :
    (∀ (c : FullCitation) (v : Int), c.volume = some v →
      c.toCitation.base_citation
        = some (toString v ++ " " ++ strOpt c.reporter ++ " " ++ strOpt c.page))
    ∧ (∀ (y : Option Int) (df pl : Option String),
        ({ reporter := some "U.S.", page := some "200", volume := some 515,
           year := y, defendant := df, plaintiff := pl } : FullCitation).toCitation.base_citation
          = some "515 U.S. 200") := by
  constructor
  · intro c v h
    simp [Citation.base_citation, h]
  · intro y df pl
    rfl

/-- Witness for C3 at the concrete Adarand citation. -/
theorem base_citation_full_form_witness :
    ({ reporter := some "U.S.", page := some "200", volume := some 515 }
      : FullCitation).toCitation.base_citation = some "515 U.S. 200" :=
  base_citation_full_form.1
    { reporter := some "U.S.", page := some "200", volume := some 515 } 515 rfl

/-- C10: `base_citation` is partial over the variant set: every IdCitation
(volume always absent by construction) and every SupraCitation constructed
without a volume fail `base_citation` (the `%d` conversion needs an integer
volume, modelled as `none`); neither variant overrides the inherited
method. -/
theorem base_citation_partial_id_supra :
    (∀ (tok : String) (toks : List String) (lk : Bool),
      (IdCitation.make tok toks lk).volume = none
        ∧ (IdCitation.make tok toks lk).toCitation.base_citation = none)
    ∧ (∀ (g : String) (p : Option String),
        (SupraCitation.make g p none).volume = none
          ∧ (SupraCitation.make g p none).toCitation.base_citation = none) :=
  ⟨fun _ _ _ => ⟨rfl, rfl⟩, fun _ _ => ⟨rfl, rfl⟩⟩

/-- Counterexample for C2: `fuzzy_hash` concatenates the `str()` values of
the five equality attributes with no separator, so a `None` reporter and the
literal string "None" collide: the two citations below are fuzzy-equal yet
differ in `reporter`, refuting the claimed "only if" direction. -/
theorem fuzzy_eq_collision_counterexample :
    Citation.fuzzy_eq
        { reporter := none, page := some "200", volume := some 515 }
        { reporter := some "None", page := some "200", volume := some 515 } = true
      ∧ ({ reporter := none, page := some "200", volume := some 515 } : Citation).reporter
          ≠ ({ reporter := some "None", page := some "200", volume := some 515 }
              : Citation).reporter :=
  ⟨rfl, by decide⟩

/-- C2 (amended): two citations agreeing on all five equality attributes
`{reporter, volume, page, canonical_reporter, lookup_index}` are always
`fuzzy_eq`-equal, and `year`/`court`/`match_url`/`match_id` never affect
fuzzy equality; the converse fails because the fingerprint concatenates the
attributes' string forms without a separator (see the counterexample). -/
theorem fuzzy_eq_of_equality_attributes :
    (∀ a b : Citation, a.reporter = b.reporter → a.volume = b.volume → a.page = b.page →
      a.canonical_reporter = b.canonical_reporter → a.lookup_index = b.lookup_index →
      a.fuzzy_eq b = true)
    ∧ (∀ (a : Citation) (y : Option Int) (co u i : Option String),
        a.fuzzy_eq
          { a with year := y, court := co, match_url := u, match_id := i } = true) := by
  constructor
  · intro a b h1 h2 h3 h4 h5
    simp [Citation.fuzzy_eq, Citation.fuzzy_hash, h1, h2, h3, h4, h5]
  · intro a y co u i
    simp [Citation.fuzzy_eq, Citation.fuzzy_hash]

/-- Witness for C2 at two concrete citations differing only in year and
court. -/
theorem fuzzy_eq_of_equality_attributes_witness :
    Citation.fuzzy_eq
        { reporter := some "U.S.", page := some "200", volume := some 515,
          year := some 1995 }
        { reporter := some "U.S.", page := some "200", volume := some 515,
          court := some "scotus" } = true :=
  fuzzy_eq_of_equality_attributes.1
    { reporter := some "U.S.", page := some "200", volume := some 515, year := some 1995 }
    { reporter := some "U.S.", page := some "200", volume := some 515, court := some "scotus" }
    rfl rfl rfl rfl rfl

/-- C4: when `canonical_reporter` is absent or not a key of the taxonomy,
`to_model` fails (the `REPORTERS[...]` subscript raises) instead of
returning a model citation. -/
theorem to_model_unknown_reporter_fails :
    ∀ (reporters : List (String × List TaxonomyEntry)) (mapCiteType : String → Option Nat)
      (c : Citation),
      (∀ cr, c.canonical_reporter = some cr → reporters.lookup cr = none) →
      c.to_model reporters mapCiteType = none := by
  intro reporters m c h
  cases hc : c.canonical_reporter with
  | none => simp [Citation.to_model, hc]
  | some cr => simp [Citation.to_model, hc, h cr hc]

/-- Witness for C4: an empty taxonomy rejects a citation whose canonical
reporter is "F". -/
theorem to_model_unknown_reporter_fails_witness :
    Citation.to_model [] (fun _ => none)
      { reporter := some "F.2d", page := some "1", volume := some 1,
        canonical_reporter := some "F" } = none :=
  to_model_unknown_reporter_fails [] (fun _ => none)
    { reporter := some "F.2d", page := some "1", volume := some 1,
      canonical_reporter := some "F" }
    (fun _ _ => rfl)

/-- C6: `FullCitation.as_regex` embeds the escaped `reporter_found` surface
text, never the normalized `reporter`: changing only `reporter` leaves the
pattern unchanged, and the pattern is exactly the volume, the escaped
surface reporter and the escaped page with whitespace groups between. -/
theorem full_as_regex_uses_reporter_found :
    (∀ (c : FullCitation) (r1 r2 : Option String),
      ({ c with reporter := r1 } : FullCitation).as_regex
        = ({ c with reporter := r2 } : FullCitation).as_regex)
    ∧ (∀ (c : FullCitation) (v : Int) (rf p : String),
        c.volume = some v → c.reporter_found = some rf → c.page = some p →
        c.as_regex = some (toString v ++ "(\\s+)" ++ reEscape rf
          ++ "(\\s+)" ++ reEscape p ++ "(\\s?)")) := by
  constructor
  · intro c r1 r2
    rfl
  · intro c v rf p h1 h2 h3
    simp [FullCitation.as_regex, h1, h2, h3]

/-- Witness for C6: the pattern of a concrete citation whose surface
reporter "U. S." differs from the normalized "U.S.". -/
theorem full_as_regex_uses_reporter_found_witness :
    ({ reporter := some "U.S.", page := some "200", volume := some 515,
        reporter_found := some "U. S." } : FullCitation).as_regex
      = some ("515" ++ "(\\s+)" ++ reEscape "U. S." ++ "(\\s+)" ++ reEscape "200"
          ++ "(\\s?)") :=
  full_as_regex_uses_reporter_found.2
    { reporter := some "U.S.", page := some "200", volume := some 515,
      reporter_found := some "U. S." }
    515 "U. S." "200" rfl rfl rfl

/-- Shifting `List.range`: the reference list `1 :: [2..N+1] ++ [N+2]` is
exactly `[1 .. N+2]`. -/
theorem range_shift_two (N : Nat) :
    1 :: ((List.range N).map (fun k => k + 2) ++ [N + 2])
      = (List.range (N + 2)).map (fun k => k + 1) := by
  have h : (List.range (N + 1)).map (fun k => k + 1)
      = 1 :: (List.range N).map (fun k => k + 2) := by
    rw [List.range_succ_eq_map, List.map_cons, List.map_map]
    congr 1
  have h2 : List.range (N + 2) = List.range (N + 1) ++ [N + 1] := List.range_succ (N + 1)
  rw [h2, List.map_append, h]
  simp

/-- Counterexample for C1: with zero after tokens the generated pattern has
three capture groups, not `0 + 2`, and the markup references only groups 1
and 2, leaving the final `(\s?)` group unreferenced.  The first conjunct
grounds the pattern AST in the string `as_regex` builds. -/
theorem id_group_count_zero_counterexample :
    (IdCitation.make "id." [] false).as_regex_ast.render
        = (IdCitation.make "id." [] false).as_regex
      ∧ (IdCitation.make "id." [] false).as_regex_ast.groupCount = 3
      ∧ ¬ (IdCitation.make "id." [] false).as_regex_ast.groupCount = 0 + 2
      ∧ refsOf (IdCitation.make "id." [] false).as_html_pieces = [1, 2] :=
  ⟨id_as_regex_render (IdCitation.make "id." [] false), rfl, by decide, rfl⟩

/-- C1 (amended): for `after_tokens` of length N ≥ 1 the IdCitation pattern
has exactly N+2 capture groups and the markup references exactly groups
1 .. N+2 (no gaps, none unreferenced); for N = 0 the pattern has 3 groups —
leading, post-id-token, and trailing `(\s?)` — and the markup references
only groups 1 and 2, leaving the trailing group unreferenced.  The first
conjunct grounds the pattern AST in the string `as_regex` builds. -/
theorem id_group_count_and_refs :
    ∀ c : IdCitation,
      c.as_regex_ast.render = c.as_regex
      ∧ (c.after_tokens ≠ [] →
          c.as_regex_ast.groupCount = c.after_tokens.length + 2
          ∧ refsOf c.as_html_pieces
              = (List.range (c.after_tokens.length + 2)).map (fun k => k + 1))
      ∧ (c.after_tokens = [] →
          c.as_regex_ast.groupCount = 3
          ∧ refsOf c.as_html_pieces = [1, 2]) := by
  intro c
  refine ⟨id_as_regex_render c, ?_, ?_⟩
  · intro hne
    constructor
    · rw [id_groupCount]
      have hlen : c.after_tokens.length ≠ 0 := by
        simpa using hne
      omega
    · rw [refsOf_as_html_pieces, refsOf_after_token_pieces, range_shift_two]
  · intro he
    constructor
    · rw [id_groupCount, he]
      rfl
    · rw [refsOf_as_html_pieces, refsOf_after_token_pieces, he]
      rfl

/-- Witness for C1 at the concrete citation `id., at 240`: two after tokens
give four groups and references 1 .. 4. -/
theorem id_group_count_and_refs_witness :
    (IdCitation.make "id." ["at", "240"] false).as_regex_ast.groupCount = 4
      ∧ refsOf (IdCitation.make "id." ["at", "240"] false).as_html_pieces = [1, 2, 3, 4] := by
  have h := (id_group_count_and_refs (IdCitation.make "id." ["at", "240"] false)).2.1
    (by decide)
  exact ⟨h.1, by rw [h.2]; rfl⟩

/-- Counterexample for C8: the rendered markup of a concrete IdCitation does
not begin with the `\g<1>` backreference — it begins with the opening tag of
the citation span. -/
theorem id_as_html_leading_backref_counterexample :
    strStarts (IdCitation.make "id." ["at"] false).as_html "\\g<1>" = false
      ∧ strStarts (IdCitation.make "id." ["at"] false).as_html "<span class=\"citation" = true :=
  ⟨rfl, rfl⟩

/-- C8 (amended): the IdCitation markup places the backreference to the
leading whitespace-or-HTML group immediately AFTER the opening tag of the
citation span, inside the container (the leading whitespace is re-emitted
inside the semantic span, not before it); the replacement template renders
exactly to the string `as_html` builds. -/
theorem id_as_html_backref_inside_span :
    ∀ c : IdCitation,
      renderPieces c.as_html_pieces = c.as_html
      ∧ ∃ rest : List HtmlPiece,
          c.as_html_pieces
            = HtmlPiece.lit ("<span class=\"" ++ citationSpanClass c.match_url ++ "\""
                ++ citationDataAttr c.match_url c.match_id ++ ">")
              :: HtmlPiece.backref 1 :: rest := by
  intro c
  exact ⟨as_html_pieces_render c, _, rfl⟩

/-- Counterexample for C5: an empty-string `match_url` is present (not
absent) yet Python truthiness sends the renderer down the no-link branch:
the output contains "no-link" and no anchor element although `match_url` is
not `None`. -/
theorem no_link_empty_match_url_counterexample :
    strContains ({ reporter := none, page := none, volume := none,
                   antecedent_guess := "Adarand", match_url := some "" }
        : SupraCitation).as_html "no-link" = true
      ∧ ({ reporter := none, page := none, volume := none, antecedent_guess := "Adarand",
            match_url := some "" } : SupraCitation).match_url ≠ none
      ∧ strContains ({ reporter := none, page := none, volume := none,
                       antecedent_guess := "Adarand", match_url := some "" }
          : SupraCitation).as_html "<a href=" = false :=
  ⟨rfl, by decide, rfl⟩

/-- C5 (amended): every variant's `as_html` wraps its body in an outer span
whose class is exactly "citation no-link" when `match_url` is absent or
empty (Python-falsy) and exactly "citation" otherwise; in the truthy case
the body is anchor-wrapped with `href = match_url` and the span carries a
`data-id` attribute with `match_id`, and in the falsy case there is no
anchor and no data attribute.  The leading ground conjuncts relate the two
class strings to the substrings "citation" and "no-link". -/
theorem as_html_citation_span_structure :
    strContains "citation no-link" "citation" = true
    ∧ strContains "citation no-link" "no-link" = true
    ∧ strContains "citation" "citation" = true
    ∧ strContains "citation" "no-link" = false
    ∧ (∀ (f : FullCitation) (ih : String), f.inner_html = some ih →
        (truthyS f.match_url = false →
          f.as_html = some (spanWrap "citation no-link" "" ih))
        ∧ (∀ url, f.match_url = some url → url ≠ "" →
            f.as_html = some (spanWrap "citation"
              (" data-id=\"" ++ strOpt f.match_id ++ "\"")
              ("<a href=\"" ++ url ++ "\">" ++ ih ++ "</a>"))))
    ∧ (∀ (s : ShortformCitation) (ih : String), s.inner_html = some ih →
        (truthyS s.match_url = false →
          s.as_html = some (spanWrap "citation no-link" ""
            ("<span class=\"antecedent_guess\">" ++ s.antecedent_guess ++ "</span>\\g<1>"
              ++ ih)))
        ∧ (∀ url, s.match_url = some url → url ≠ "" →
            s.as_html = some (spanWrap "citation"
              (" data-id=\"" ++ strOpt s.match_id ++ "\"")
              ("<span class=\"antecedent_guess\">" ++ s.antecedent_guess ++ "</span>\\g<1>"
                ++ ("<a href=\"" ++ url ++ "\">" ++ ih ++ "</a>")))))
    ∧ (∀ p : SupraCitation,
        (truthyS p.match_url = false →
          p.as_html = spanWrap "citation no-link" "" p.inner_html)
        ∧ (∀ url, p.match_url = some url → url ≠ "" →
            p.as_html = spanWrap "citation"
              (" data-id=\"" ++ strOpt p.match_id ++ "\"")
              ("<a href=\"" ++ url ++ "\">" ++ p.inner_html ++ "</a>")))
    ∧ (∀ ic : IdCitation,
        (truthyS ic.match_url = false →
          ic.as_html = spanWrap "citation no-link" ""
            ("\\g<1>" ++ ("<span class=\"id_token\">" ++ ic.id_token ++ "</span>"
              ++ ic.generate_after_token_html)))
        ∧ (∀ url, ic.match_url = some url → url ≠ "" →
            (ic.should_linkify = false →
              ic.as_html = spanWrap "citation"
                (" data-id=\"" ++ strOpt ic.match_id ++ "\"")
                ("\\g<1>" ++ ("<a href=\"" ++ url ++ "\"><span class=\"id_token\">"
                  ++ ic.id_token ++ "</span></a>" ++ ic.generate_after_token_html)))
            ∧ (ic.should_linkify = true →
              ic.as_html = spanWrap "citation"
                (" data-id=\"" ++ strOpt ic.match_id ++ "\"")
                ("\\g<1>" ++ ("<a href=\"" ++ url ++ "\"><span class=\"id_token\">"
                  ++ ic.id_token ++ "</span>" ++ ic.generate_after_token_html
                  ++ "</a>"))))) := by
  refine ⟨by decide, by decide, by decide, by decide, ?_, ?_, ?_, ?_⟩
  · intro f ih hih
    constructor
    · intro hfal
      simp [FullCitation.as_html, hih, citationSpanClass, citationDataAttr,
        citationLinkWrap, hfal]
    · intro url hu hne
      have ht : truthyS (some url) = true := by
        simp [truthyS]
        exact hne
      simp [FullCitation.as_html, hih, citationSpanClass, citationDataAttr,
        citationLinkWrap, ht, hu, strOpt]
  · intro s ih hih
    constructor
    · intro hfal
      simp [ShortformCitation.as_html, hih, citationSpanClass, citationDataAttr,
        citationLinkWrap, hfal]
    · intro url hu hne
      have ht : truthyS (some url) = true := by
        simp [truthyS]
        exact hne
      simp [ShortformCitation.as_html, hih, citationSpanClass, citationDataAttr,
        citationLinkWrap, ht, hu, strOpt]
  · intro p
    constructor
    · intro hfal
      simp [SupraCitation.as_html, citationSpanClass, citationDataAttr,
        citationLinkWrap, hfal]
    · intro url hu hne
      have ht : truthyS (some url) = true := by
        simp [truthyS]
        exact hne
      simp [SupraCitation.as_html, citationSpanClass, citationDataAttr,
        citationLinkWrap, ht, hu, strOpt]
  · intro ic
    constructor
    · intro hfal
      simp [IdCitation.as_html, IdCitation.id_string, citationSpanClass,
        citationDataAttr, hfal]
    · intro url hu hne
      have ht : truthyS (some url) = true := by
        simp [truthyS]
        exact hne
      constructor
      · intro hl
        simp [IdCitation.as_html, IdCitation.id_string, citationSpanClass,
          citationDataAttr, ht, hu, hl, strOpt]
      · intro hl
        simp [IdCitation.as_html, IdCitation.id_string, citationSpanClass,
          citationDataAttr, ht, hu, hl, strOpt]

/-- Witness for C5: the no-link branch of a concrete FullCitation with no
`match_url`. -/
theorem as_html_citation_span_structure_witness :
    ({ reporter := some "U.S.", page := some "200", volume := some 515 }
        : FullCitation).as_html
      = some (spanWrap "citation no-link" ""
          ("<span class=\"volume\">515</span>\\g<1><span class=\"reporter\">U.S.</span>"
            ++ "\\g<2><span class=\"page\">200</span>\\g<3>")) := by
  have h := (as_html_citation_span_structure.2.2.2.2.1
    { reporter := some "U.S.", page := some "200", volume := some 515 }
    ("<span class=\"volume\">515</span>\\g<1><span class=\"reporter\">U.S.</span>"
      ++ "\\g<2><span class=\"page\">200</span>\\g<3>") rfl).1 rfl
  exact h

/-- C9: in a linked ShortformCitation's markup the anchor wraps only the
volume/reporter/page template; the antecedent-guess span and the leading
backreference sit inside the outer citation span but strictly outside the
anchor element. -/
theorem shortform_anchor_excludes_antecedent :
    ∀ (s : ShortformCitation) (v : Int) (url : String),
      s.volume = some v → s.match_url = some url → url ≠ "" →
      s.as_html = some (spanWrap "citation" (" data-id=\"" ++ strOpt s.match_id ++ "\"")
        ("<span class=\"antecedent_guess\">" ++ s.antecedent_guess ++ "</span>\\g<1>"
          ++ ("<a href=\"" ++ url ++ "\">"
              ++ ("<span class=\"volume\">" ++ toString v ++ "</span>\\g<2><span class=\"reporter\">"
                ++ strOpt s.reporter ++ "</span>\\g<3>\\g<4>at\\g<5><span class=\"page\">"
                ++ strOpt s.page ++ "</span>\\g<6>")
              ++ "</a>"))) := by
  intro s v url hv hu hne
  have ht : truthyS (some url) = true := by
    simp [truthyS]
    exact hne
  simp [ShortformCitation.as_html, ShortformCitation.inner_html, hv, citationSpanClass,
    citationDataAttr, citationLinkWrap, ht, hu, strOpt]

/-- Witness for C9 at the concrete shortform citation `Adarand, 515 U.S.,
at 241` resolved to a URL. -/
theorem shortform_anchor_excludes_antecedent_witness :
    ({ reporter := some "U.S.", page := some "241", volume := some 515,
       antecedent_guess := "Adarand", match_url := some "/opinion/1",
       match_id := some "1" } : ShortformCitation).as_html
      = some (spanWrap "citation" (" data-id=\"" ++ "1" ++ "\"")
          ("<span class=\"antecedent_guess\">" ++ "Adarand" ++ "</span>\\g<1>"
            ++ ("<a href=\"" ++ "/opinion/1" ++ "\">"
                ++ ("<span class=\"volume\">" ++ "515" ++ "</span>\\g<2><span class=\"reporter\">"
                  ++ "U.S." ++ "</span>\\g<3>\\g<4>at\\g<5><span class=\"page\">"
                  ++ "241" ++ "</span>\\g<6>")
                ++ "</a>"))) :=
  shortform_anchor_excludes_antecedent
    { reporter := some "U.S.", page := some "241", volume := some 515,
      antecedent_guess := "Adarand", match_url := some "/opinion/1", match_id := some "1" }
    515 "/opinion/1" rfl rfl (by decide)

/-- Counterexample for C7: the FullCitation matcher does not tolerate an
embedded HTML tag between adjacent tokens — the pattern for `515 U.S. 200`
(grounded in the string `as_regex` builds) fails to match when a tag
separates the volume from the reporter. -/
theorem full_regex_html_tag_counterexample :
    ({ reporter := some "U.S.", page := some "200", volume := some 515,
       reporter_found := some "U.S." } : FullCitation).as_regex
        = some (fullRegexAst 515 "U.S." "200").render
      ∧ Rx.search (fullRegexAst 515 "U.S." "200") "515<i> </i>U.S. 200" = false := by
  constructor
  · rw [full_regex_render]
    rfl
  · decide

/-- C7 (amended): the wildcards inserted between adjacent fixed tokens by
FullCitation, ShortformCitation and SupraCitation are separate capture
groups matching variable whitespace only (`(\s+)`, plus Shortform's
optional-comma group); they match across plain whitespace but not across an
embedded HTML tag — only the IdCitation wildcard additionally matches HTML
tags and commas, and its matcher does cross tags. -/
theorem regex_wildcards_whitespace_only :
    (∀ (f : FullCitation) (v : Int) (rf p : String),
      f.volume = some v → f.reporter_found = some rf → f.page = some p →
      f.as_regex = some (fullRegexAst v rf p).render)
    ∧ (∀ (s : ShortformCitation) (v : Int) (rf p : String),
      s.volume = some v → s.reporter_found = some rf → s.page = some p →
      s.as_regex = some (reEscape s.antecedent_guess ++ "(\\s+)" ++ toString v ++ "(\\s+)"
        ++ reEscape rf ++ "(,?)(\\s+)at(\\s+)" ++ reEscape p ++ "(\\s?)"))
    ∧ (∀ p : SupraCitation, truthyI p.volume = false → truthyS p.page = false →
        p.as_regex = reEscape p.antecedent_guess ++ "(\\s+)supra" ++ "(\\s?)")
    ∧ Rx.search (fullRegexAst 515 "U.S." "200") "515 U.S. 200" = true
    ∧ Rx.search (fullRegexAst 515 "U.S." "200") "515<i> </i>U.S. 200" = false
    ∧ Rx.search (IdCitation.make "id." ["at"] false).as_regex_ast "id.</b>at" = true := by
  refine ⟨?_, ?_, ?_, by decide, by decide, by decide⟩
  · intro f v rf p h1 h2 h3
    rw [full_regex_render]
    simp [FullCitation.as_regex, h1, h2, h3]
  · intro s v rf p h1 h2 h3
    simp [ShortformCitation.as_regex, h1, h2, h3]
  · intro p h1 h2
    simp [SupraCitation.as_regex, h1, h2, strAppendEmpty]

/-- Witness for C7 at the concrete citation `515 U.S. 200`. -/
theorem regex_wildcards_whitespace_only_witness :
    ({ reporter := some "U.S.", page := some "200", volume := some 515,
       reporter_found := some "U.S." } : FullCitation).as_regex
      = some (fullRegexAst 515 "U.S." "200").render :=
  regex_wildcards_whitespace_only.1
    { reporter := some "U.S.", page := some "200", volume := some 515,
      reporter_found := some "U.S." }
    515 "U.S." "200" rfl rfl rfl
